import Mathlib

set_option linter.unusedVariables false

/-!
Verification of the recipe web application (`flask-example/app.py`).

The application is embedded shallowly: Python dict records become a
`Recipe` structure, the module-level `recipes` list becomes a Lean list,
every route handler becomes a function taking the incoming request and
the current recipe collection (the only mutable state of the process)
and returning the produced response together with the collection after
the handler ran, and the route table becomes `dispatch`, which matches a
path (as a list of segments) against the five registered patterns,
applying the `int` converter (`\d+`, i.e. a nonempty all-digit segment)
on the detail route, and falls back to the framework 404 page when no
pattern matches.
-/

/-- One record of the collection: `{'id': ..., 'name': ..., 'category': ...,
'description': ...}` in `app.py`. -/
structure Recipe where
  id : Int
  name : String
  category : String
  description : String
deriving Repr, DecidableEq

/-- The module-level `recipes` list of `app.py` (lines 6-25). -/
def recipes : List Recipe :=
  [ { id := 1, name := "Adobo", category := "Main Course",
      description := "A savoury dish of marinated pork or chicken simmered in soy sauce, vinegar, and garlic." },
    { id := 2, name := "Kare-Kare", category := "Main Course",
      description := "A rich peanut-based stew with oxtail, beef, or pork, served with a side of shrimp paste (bagoong)." },
    { id := 3, name := "Lumpia", category := "Main Course",
      description := "A crispy, golden fried spring roll filled with seasoned ground pork and vegetables, often served with sweet and sour dipping sauce." } ]

/-- An incoming HTTP request.  The handlers of `app.py` never read the
request object, so only the submitted form data is carried, to be able to
state that results do not depend on it. -/
structure Request where
  formData : List (String × String)
deriving Repr, DecidableEq

/-- A response produced by the application: a rendered template (with the
data passed to `render_template`), the literal `("Recipe not found", 404)`
tuple of the detail handler, or the framework's own not-found page when no
route pattern matches the requested path. -/
inductive Response where
  | renderIndex (rs : List Recipe)
  | renderDetail (recipe : Recipe)
  | renderPage (template : String)
  | notFound (body : String) (code : Nat)
  | frameworkNotFound
deriving Repr, DecidableEq

/-- HTTP status code of a response: rendering a template yields 200,
the explicit tuple carries its own code, the framework page is a 404. -/
def Response.status : Response → Nat
  | Response.notFound _ code => code
  | Response.frameworkNotFound => 404
  | _ => 200

/-- `index` (`app.py` lines 27-30): renders `index.html` with the whole
collection. -/
def index (req : Request) (rs : List Recipe) : Response × List Recipe :=
  (Response.renderIndex rs, rs)

/-- `recipe_detail` (`app.py` lines 32-41):
`next((r for r in recipes if r['id'] == recipe_id), None)`, then either
render the detail template or return `"Recipe not found", 404`. -/
def recipe_detail (req : Request) (recipe_id : Int) (rs : List Recipe) :
    Response × List Recipe :=
  match rs.find? (fun r => r.id == recipe_id) with
  | some recipe => (Response.renderDetail recipe, rs)
  | none => (Response.notFound "Recipe not found" 404, rs)

/-- `add_recipe` (`app.py` lines 43-46): renders the form template only. -/
def add_recipe (req : Request) (rs : List Recipe) : Response × List Recipe :=
  (Response.renderPage "add_recipe.html", rs)

/-- `about` (`app.py` lines 48-51). -/
def about (req : Request) (rs : List Recipe) : Response × List Recipe :=
  (Response.renderPage "about.html", rs)

/-- `contact` (`app.py` lines 53-56). -/
def contact (req : Request) (rs : List Recipe) : Response × List Recipe :=
  (Response.renderPage "contact.html", rs)

/-- Numeric value of an all-digit path segment, as the `int` converter
computes it. -/
def digitsToNat (seg : String) : Nat :=
  seg.data.foldl (fun n c => n * 10 + (c.toNat - 48)) 0

/-- The route converter `<int:recipe_id>`: the segment matches exactly when
it is nonempty and consists of digits only (the converter's `\d+` pattern);
a minus sign or any other non-digit character makes the route not match. -/
def matchesIntConverter (seg : String) : Bool :=
  !seg.isEmpty && seg.data.all Char.isDigit

/-- The route table of `app.py`: `/`, `/recipe/<int:recipe_id>`,
`/add-recipe`, `/about`, `/contact`; any other path, including a detail
path whose segment fails the `int` converter, yields the framework's own
not-found response. -/
def dispatch (segs : List String) (req : Request) (rs : List Recipe) :
    Response × List Recipe :=
  match segs with
  | [] => index req rs
  | ["recipe", seg] =>
      if matchesIntConverter seg then
        recipe_detail req (Int.ofNat (digitsToNat seg)) rs
      else
        (Response.frameworkNotFound, rs)
  | ["add-recipe"] => add_recipe req rs
  | ["about"] => about req rs
  | ["contact"] => contact req rs
  | _ => (Response.frameworkNotFound, rs)

/-- Specification-level lookup, stated as the spec words it: scan the
collection in order and return the first record whose identifier matches,
or an absence signal if none matches. -/
def firstMatch (rs : List Recipe) (recipe_id : Int) : Option Recipe :=
  match rs with
  | [] => none
  | r :: rest => if r.id = recipe_id then some r else firstMatch rest recipe_id

theorem find?_eq_firstMatch (rs : List Recipe) (recipe_id : Int) :
    rs.find? (fun r => r.id == recipe_id) = firstMatch rs recipe_id := by
  induction rs with
  | nil => rfl
  | cons r rest ih =>
      by_cases h : r.id = recipe_id
      · simp [List.find?, firstMatch, h]
      · have hb : (r.id == recipe_id) = false := beq_eq_false_iff_ne.mpr h
        simp [List.find?, firstMatch, h, hb, ih]

/-- C1: the detail operation scans the fixed collection in order and
returns the first record whose identifier equals the given one, or the
not-found signal when no record matches. -/
theorem recipe_detail_scans_in_order (req : Request) (recipe_id : Int) :
    (recipe_detail req recipe_id recipes).1 =
      match firstMatch recipes recipe_id with
      | some r => Response.renderDetail r
      | none => Response.notFound "Recipe not found" 404 := by
  unfold recipe_detail
  rw [find?_eq_firstMatch]
  cases firstMatch recipes recipe_id <;> rfl

/-- C2: for every integer identifier matching no record of the collection,
the detail request returns the body "Recipe not found" with status 404. -/
theorem recipe_detail_not_found (req : Request) (recipe_id : Int)
    (h : ∀ r ∈ recipes, r.id ≠ recipe_id) :
    (recipe_detail req recipe_id recipes).1 =
      Response.notFound "Recipe not found" 404 := by
  unfold recipe_detail
  have hn : recipes.find? (fun r => r.id == recipe_id) = none := by
    rw [List.find?_eq_none]
    intro r hr
    simpa using h r hr
  rw [hn]

theorem recipe_detail_not_found_witness :
    (∀ r ∈ recipes, r.id ≠ (999 : Int)) ∧
      (recipe_detail ⟨[]⟩ 999 recipes).1 =
        Response.notFound "Recipe not found" 404 :=
  ⟨by decide, recipe_detail_not_found ⟨[]⟩ 999 (by decide)⟩

/-- C3: every record of the seeded collection is returned, with all its
fields, when its own identifier is requested on the detail page. -/
theorem recipe_detail_found (req : Request) (r : Recipe) (h : r ∈ recipes) :
    (recipe_detail req r.id recipes).1 = Response.renderDetail r := by
  fin_cases h <;> rfl

theorem recipe_detail_found_witness :
    recipes.get ⟨0, by decide⟩ ∈ recipes ∧
      (recipe_detail ⟨[]⟩ (recipes.get ⟨0, by decide⟩).id recipes).1 =
        Response.renderDetail (recipes.get ⟨0, by decide⟩) :=
  ⟨by decide, recipe_detail_found ⟨[]⟩ _ (by decide)⟩

/-- C4: the seeded collection has exactly 3 records, their identifiers are
exactly 1, 2, 3, and no identifier repeats. -/
theorem recipes_seed_invariants :
    recipes.length = 3 ∧ recipes.map Recipe.id = [1, 2, 3] ∧
      (recipes.map Recipe.id).Nodup := by
  decide

/-- C5: every route, hence every handler, leaves the recipe collection
exactly as it was before the request. -/
theorem handlers_preserve_recipes (segs : List String) (req : Request)
    (rs : List Recipe) : (dispatch segs req rs).2 = rs := by
  unfold dispatch
  split
  · rfl
  · split
    · unfold recipe_detail
      split <;> rfl
    · rfl
  · rfl
  · rfl
  · rfl
  · rfl

/-- C6: the home handler passes the complete collection to the renderer,
and the collection's names are "Adobo", "Kare-Kare" and "Lumpia". -/
theorem index_lists_all_names (req : Request) :
    (index req recipes).1 = Response.renderIndex recipes ∧
      "Adobo" ∈ recipes.map Recipe.name ∧
      "Kare-Kare" ∈ recipes.map Recipe.name ∧
      "Lumpia" ∈ recipes.map Recipe.name :=
  ⟨rfl, by decide, by decide, by decide⟩

/-- C7: the add-recipe, about and contact handlers answer 200 on every
request and every collection state, and the only route whose response can
be the handler-level not-found tuple is the detail route. -/
theorem static_pages_always_ok (req : Request) (rs : List Recipe) :
    (add_recipe req rs).1.status = 200 ∧
      (about req rs).1.status = 200 ∧
      (contact req rs).1.status = 200 ∧
      ∀ segs body code, (dispatch segs req rs).1 = Response.notFound body code →
        ∃ seg, segs = ["recipe", seg] := by
  refine ⟨rfl, rfl, rfl, ?_⟩
  intro segs body code h
  unfold dispatch at h
  split at h
  · simp [index] at h
  · exact ⟨_, rfl⟩
  · simp [add_recipe] at h
  · simp [about] at h
  · simp [contact] at h
  · simp at h

/-- C8: the add-recipe handler's response is the same whatever form data
is submitted, and no route grows or changes the collection. -/
theorem add_recipe_ignores_submission (req req2 : Request) (segs : List String)
    (rs : List Recipe) :
    add_recipe req rs = add_recipe req2 rs ∧
      (add_recipe req rs).2 = rs ∧
      (dispatch segs req rs).2 = rs := by
  refine ⟨rfl, rfl, ?_⟩
  unfold dispatch
  split
  · rfl
  · split
    · unfold recipe_detail
      split <;> rfl
    · rfl
  · rfl
  · rfl
  · rfl
  · rfl

/-- C9: a detail path whose segment is not a nonempty run of digits (a
negative number, a word, ...) never reaches the handler: routing answers
with the framework's own not-found page, which is not the handler's
"Recipe not found" tuple. -/
theorem detail_route_rejects_nonnumeric (seg : String) (req : Request)
    (rs : List Recipe) (h : matchesIntConverter seg = false) :
    (dispatch ["recipe", seg] req rs).1 = Response.frameworkNotFound ∧
      ∀ body code, Response.frameworkNotFound ≠ Response.notFound body code := by
  constructor
  · simp [dispatch, h]
  · intro body code hc
    exact Response.noConfusion hc

theorem detail_route_rejects_nonnumeric_witness :
    matchesIntConverter "-1" = false ∧
      ((dispatch ["recipe", "-1"] ⟨[]⟩ recipes).1 = Response.frameworkNotFound ∧
        ∀ body code, Response.frameworkNotFound ≠ Response.notFound body code) :=
  ⟨by decide, detail_route_rejects_nonnumeric "-1" ⟨[]⟩ recipes (by decide)⟩

/-- C10: the detail operation is deterministic: a second invocation with
the same identifier, on the state the first invocation left behind, gives
the same response, whatever either request carried. -/
theorem recipe_detail_deterministic (req1 req2 : Request) (recipe_id : Int)
    (rs : List Recipe) :
    (recipe_detail req1 recipe_id rs).1 =
      (recipe_detail req2 recipe_id ((recipe_detail req1 recipe_id rs).2)).1 := by
  unfold recipe_detail
  cases h : rs.find? (fun r => r.id == recipe_id) <;> simp [h]
